import Mathlib

/-!
Shallow embedding of the ABCD detector assessment pipeline
(`main.py` and `helpers/generic_helpers.py`).

Modelling conventions:
* the Google Cloud Storage bucket is a list of `Blob`s (object name and
  byte size); `list_blobs(prefix=p)` is a filter on names starting with `p`;
* Python floats are modelled as exact rationals (`ℚ`);
* Python exceptions (the `ValueError` raised by tuple unpacking, the
  generation-precondition failure of a guarded upload, the `SystemExit`
  raised by `exit()`) are modelled with `Except String`;
* the fourteen feature detectors are external collaborators: a run is
  parameterised by a function giving each blob's detector outputs.
-/

namespace ABCD

/-- Python `s.split(sep)` for a single-character separator, on char lists. -/
def splitOnChar (c : Char) : List Char → List (List Char)
  | [] => [[]]
  | x :: xs =>
    match splitOnChar c xs with
    | [] => []
    | r :: rs => if x = c then [] :: r :: rs else (x :: r) :: rs

/-- Python `s.split(sep)` (single-character separator) on strings. -/
def pySplit (s : String) (c : Char) : List String :=
  (splitOnChar c s.toList).map String.mk

/-- Python substring test `pat in s`. -/
def pyIn (pat s : String) : Bool :=
  decide (pat.toList <:+: s.toList)

/-- GCS `list_blobs(prefix=p)` membership test: `p` starts the object name. -/
def nameHasPre (p s : String) : Bool :=
  decide (p.toList <+: s.toList)

/-- Result value of `get_file_name_from_gcs_url`: either the documented
pair `(file_name, file_name_with_format)` or the bare `""` returned when
the url does not have exactly three `/`-separated parts. -/
inductive NameResolution where
  | pair (file_name file_name_with_format : String)
  | single (s : String)
deriving DecidableEq

/-- `get_file_name_from_gcs_url` from `helpers/generic_helpers.py`. -/
def get_file_name_from_gcs_url (gcs_url : String) : NameResolution :=
  if (pySplit gcs_url '/').length = 3 then
    NameResolution.pair ((pySplit ((pySplit gcs_url '/').getD 2 "") '.').headD "")
      ((pySplit gcs_url '/').getD 2 "")
  else
    NameResolution.single ""

/-- Python unpacking `a, b = r` of a value that is either a 2-tuple or a
string: a 2-tuple unpacks; a string unpacks only when it has exactly two
characters (one per variable); everything else raises `ValueError`. -/
def unpackTwo : NameResolution → Except String (String × String)
  | NameResolution.pair a b => Except.ok (a, b)
  | NameResolution.single s =>
    if s.toList.length = 2 then
      Except.ok (String.mk [s.toList.getD 0 ' '], String.mk [s.toList.getD 1 ' '])
    else Except.error "ValueError"

/-- `get_video_format` from `helpers/generic_helpers.py`. -/
def get_video_format (video_location : String) : String :=
  if (pySplit video_location '.').length = 2 then (pySplit video_location '.').getD 1 ""
  else ""

/-- Detector-specific `llm_details` payload of a feature result: absent, a
list of dicts, a dict, or a value of some other type; a dict is
represented by its optional `llm_explanation` entry. -/
inductive LLMDetails where
  | absent
  | ofList (xs : List (Option String))
  | ofDict (llm_explanation : Option String)
  | other
deriving DecidableEq

/-- One feature result dict as produced by a detector. -/
structure FeatureResult where
  feature : String
  feature_detected : Bool
  llm_details : LLMDetails
deriving DecidableEq

/-- The per-video assessment dict built by
`execute_abcd_assessment_for_videos`. -/
structure VideoAssessment where
  video_name : String
  video_uri : String
  features : List FeatureResult
  passed_features_count : ℕ
  score : ℚ
deriving DecidableEq

/-- The brand-level `assessments` dict. -/
structure BrandAssessment where
  brand_name : String
  video_assessments : List VideoAssessment
deriving DecidableEq

/-- A stored object: name and byte size. -/
structure Blob where
  name : String
  size : ℕ
deriving DecidableEq

/-- The skip test at the top of the video loops in `trim_videos` and
`execute_abcd_assessment_for_videos`: the folder marker object and
already-trimmed preview clips are excluded. -/
def skipBlobName (brand_videos_folder name : String) : Bool :=
  decide (name = brand_videos_folder ++ "/") || pyIn "1st_5_secs" name

/-- Observable side effects of the trim pass on one video. -/
inductive TrimAction where
  | download (name : String)
  | transform (name : String)
  | upload (name : String)
deriving DecidableEq

/-- `bucket.get_blob(name) is not None`. -/
def blobExists (store : List Blob) (name : String) : Bool :=
  store.any (fun b => b.name = name)

/-- `blob.upload_from_filename(..., if_generation_match=0)`: the upload
succeeds only when no object exists yet at the destination. -/
def conditionalUpload (store : List Blob) (name : String) : Except String (List Blob) :=
  if blobExists store name then Except.error "PreconditionFailed"
  else Except.ok (⟨name, 0⟩ :: store)

/-- The derived preview-clip path
`{brand}/videos/{stem}_1st_5_secs.{ext}` built inside `trim_videos`. -/
def previewPath (brand_videos_folder video_name video_name_with_format : String) : String :=
  brand_videos_folder ++ "/" ++ video_name ++ "_1st_5_secs." ++
    get_video_format video_name_with_format

/-- Body of the `trim_videos` loop over the listed blob names. -/
def trimLoop (folder : String) : List String → List Blob →
    Except String (List Blob × List TrimAction)
  | [], store => Except.ok (store, [])
  | v :: rest, store =>
    if skipBlobName folder v then trimLoop folder rest store
    else
      match unpackTwo (get_file_name_from_gcs_url v) with
      | Except.error e => Except.error e
      | Except.ok (video_name, video_name_with_format) =>
        if blobExists store (previewPath folder video_name video_name_with_format) then
          trimLoop folder rest store
        else
          match conditionalUpload store (previewPath folder video_name video_name_with_format) with
          | Except.error e => Except.error e
          | Except.ok store2 =>
            match trimLoop folder rest store2 with
            | Except.error e => Except.error e
            | Except.ok (store3, acts) =>
              Except.ok (store3,
                TrimAction.download v :: TrimAction.transform v ::
                  TrimAction.upload (previewPath folder video_name video_name_with_format) :: acts)

/-- Names returned by `bucket.list_blobs(prefix=folder)`. -/
def listNames (folder : String) (store : List Blob) : List String :=
  (store.filter (fun b => nameHasPre folder b.name)).map Blob.name

/-- `trim_videos` from `helpers/generic_helpers.py`, over a store snapshot.
Returns the updated store and the download/transform/upload actions run. -/
def trim_videos (brand_name : String) (store : List Blob) :
    Except String (List Blob × List TrimAction) :=
  trimLoop (brand_name ++ "/videos") (listNames (brand_name ++ "/videos") store) store

/-- The tuple components returned by the fourteen detector calls in
`execute_abcd_assessment_for_videos` for one video. -/
structure DetectorResults where
  quick_pacing : FeatureResult
  quick_pacing_1st_5_secs : FeatureResult
  dynamic_start : FeatureResult
  supers : FeatureResult
  supers_with_audio : FeatureResult
  brand_visuals : FeatureResult
  brand_visuals_1st_5_secs : FeatureResult
  brand_visuals_logo_big_1st_5_secs : FeatureResult
  brand_mention_speech : FeatureResult
  brand_mention_speech_1st_5_secs : FeatureResult
  product_visuals : FeatureResult
  product_visuals_1st_5_secs : FeatureResult
  product_mention_text : FeatureResult
  product_mention_text_1st_5_secs : FeatureResult
  product_mention_speech : FeatureResult
  product_mention_speech_1st_5_secs : FeatureResult
  visible_face_1st_5_secs : FeatureResult
  visible_face_close_up : FeatureResult
  presence_of_people : FeatureResult
  presence_of_people_1st_5_secs : FeatureResult
  audio_speech_early : FeatureResult
  overall_pacing : FeatureResult
  call_to_action_speech : FeatureResult
  call_to_action_text : FeatureResult
deriving DecidableEq

/-- The `features` list exactly as appended in `main.py` (lines 148-264);
note that `brand_visuals_logo_big_1st_5_secs` is unpacked on line 173 but
never appended. -/
def assembleFeatures (d : DetectorResults) : List FeatureResult :=
  [d.quick_pacing, d.quick_pacing_1st_5_secs,
   d.dynamic_start,
   d.supers, d.supers_with_audio,
   d.brand_visuals, d.brand_visuals_1st_5_secs,
   d.brand_mention_speech, d.brand_mention_speech_1st_5_secs,
   d.product_visuals, d.product_visuals_1st_5_secs,
   d.product_mention_text, d.product_mention_text_1st_5_secs,
   d.product_mention_speech, d.product_mention_speech_1st_5_secs,
   d.visible_face_1st_5_secs, d.visible_face_close_up,
   d.presence_of_people, d.presence_of_people_1st_5_secs,
   d.audio_speech_early,
   d.overall_pacing,
   d.call_to_action_speech,
   d.call_to_action_text]

/-- Python `video_metadata.size / 1e6` as an exact rational
(`Rat.divInt n 1000000 = (n : ℚ) / 1000000`, see `sizeMb_eq_div`). -/
def sizeMb (bytes : ℕ) : ℚ := Rat.divInt bytes 1000000

theorem sizeMb_eq_div (bytes : ℕ) : sizeMb bytes = (bytes : ℚ) / 1000000 := by
  unfold sizeMb
  rw [Rat.divInt_eq_div]
  norm_num

/-- The `video_assessment` dict built at the end of the loop body of
`execute_abcd_assessment_for_videos` (score `= passed * 100 / total`). -/
def mkAssessment (bucket_name : String) (b : Blob) (video_name_with_format : String)
    (d : DetectorResults) : VideoAssessment :=
  { video_name := video_name_with_format
    video_uri := "gs://" ++ bucket_name ++ "/" ++ b.name
    features := assembleFeatures d
    passed_features_count := ((assembleFeatures d).filter (fun f => f.feature_detected)).length
    score := ((((assembleFeatures d).filter (fun f => f.feature_detected)).length : ℚ) * 100) /
      ((assembleFeatures d).length : ℚ) }

/-- Body of the `execute_abcd_assessment_for_videos` loop over the listed
blobs. -/
def assessLoop (bucket_name folder : String) (use_llms : Bool) (video_size_limit_mb : ℚ)
    (detect : String → DetectorResults) : List Blob → Except String (List VideoAssessment)
  | [] => Except.ok []
  | b :: rest =>
    if skipBlobName folder b.name then
      assessLoop bucket_name folder use_llms video_size_limit_mb detect rest
    else
      match unpackTwo (get_file_name_from_gcs_url b.name) with
      | Except.error e => Except.error e
      | Except.ok (video_name, video_name_with_format) =>
        if video_name = "" ∨ video_name_with_format = "" then
          assessLoop bucket_name folder use_llms video_size_limit_mb detect rest
        else if use_llms && decide (video_size_limit_mb < sizeMb b.size) then
          assessLoop bucket_name folder use_llms video_size_limit_mb detect rest
        else
          match assessLoop bucket_name folder use_llms video_size_limit_mb detect rest with
          | Except.error e => Except.error e
          | Except.ok vas =>
            Except.ok (mkAssessment bucket_name b video_name_with_format (detect b.name) :: vas)

/-- `execute_abcd_assessment_for_videos` from `main.py`, parameterised by
the abstract detector battery. -/
def execute_abcd_assessment_for_videos (brand_name bucket_name : String) (use_llms : Bool)
    (video_size_limit_mb : ℚ) (detect : String → DetectorResults) (store : List Blob) :
    Except String BrandAssessment :=
  match assessLoop bucket_name (brand_name ++ "/videos") use_llms video_size_limit_mb detect
      (store.filter (fun b => nameHasPre (brand_name ++ "/videos") b.name)) with
  | Except.error e => Except.error e
  | Except.ok vas => Except.ok { brand_name := brand_name, video_assessments := vas }

/-- `execute_abcd_detector` from `main.py`: trim pass, assessment pass,
then `exit()` (modelled as `SystemExit`) when no assessments were built. -/
def execute_abcd_detector (brand_name bucket_name : String) (use_llms : Bool)
    (video_size_limit_mb : ℚ) (detect : String → DetectorResults) (store : List Blob) :
    Except String BrandAssessment :=
  match trim_videos brand_name store with
  | Except.error e => Except.error e
  | Except.ok (store2, _) =>
    match execute_abcd_assessment_for_videos brand_name bucket_name use_llms
        video_size_limit_mb detect store2 with
    | Except.error e => Except.error e
    | Except.ok ba =>
      if ba.video_assessments.length = 0 then
        Except.error "SystemExit: There are no videos to display."
      else Except.ok ba

/-- Python `round(q, 2)` rounds half to even; integer part on rationals. -/
def roundHalfEven (q : ℚ) : ℤ :=
  if q - ⌊q⌋ < 1/2 then ⌊q⌋
  else if 1/2 < q - ⌊q⌋ then ⌊q⌋ + 1
  else if ⌊q⌋ % 2 = 0 then ⌊q⌋ else ⌊q⌋ + 1

/-- Python `round(q, 2)` on exact rationals. -/
def pyRound2 (q : ℚ) : ℚ := (roundHalfEven (q * 100) : ℚ) / 100

/-- Classification branch of `format_assessment_results`: the band is
computed from `score = round(video_assessment.get("score"), 2)`. -/
def formatClassification (score : ℚ) : String :=
  if pyRound2 score ≥ 80 then "Excellent"
  else if 65 ≤ pyRound2 score ∧ pyRound2 score < 80 then "Might Improve"
  else "Needs Review"

/-- Classification branch of `print_abcd_assetssments`: the band is
computed from the raw stored score. -/
def printClassification (score : ℚ) : String :=
  if score ≥ 80 then "Excellent"
  else if score ≥ 65 ∧ score < 80 then "Might Improve"
  else "Needs Review"

/-- Extraction of the explanation string from `llm_details` in
`generate_csv_assessment_results` (list: first element's entry; dict: its
entry; falsy or other: empty). -/
def extractExplanation : LLMDetails → String
  | LLMDetails.absent => ""
  | LLMDetails.ofList [] => ""
  | LLMDetails.ofList (x :: _) => x.getD ""
  | LLMDetails.ofDict e => e.getD ""
  | LLMDetails.other => ""

/-- Explanation cell clean-up: newlines to spaces, quotes doubled. -/
def cleanCell (e : String) : String :=
  String.mk ((e.toList.map (fun ch => if ch = '\n' then ' ' else ch)).flatMap
    (fun ch => if ch = '\"' then ['\"', '\"'] else [ch]))

/-- Last feature result carrying a given name (Python dict assignment in a
loop: the last occurrence wins). -/
def lastResultFor (fs : List FeatureResult) (name : String) : Option FeatureResult :=
  (fs.filter (fun fr => fr.feature = name)).getLast?

/-- `feature_detection.get(name, False)` in `generate_csv_assessment_results`. -/
def featureDetectionMap (fs : List FeatureResult) (name : String) : Bool :=
  match lastResultFor fs name with
  | some fr => fr.feature_detected
  | none => false

/-- `feature_explanation.get(name, "")` in `generate_csv_assessment_results`. -/
def featureExplanationMap (fs : List FeatureResult) (name : String) : String :=
  match lastResultFor fs name with
  | some fr => extractExplanation fr.llm_details
  | none => ""

/-- String order modelling Python `sorted` (code-point lexicographic). -/
def strLe (a b : String) : Prop := a.toList ≤ b.toList

instance : DecidableRel strLe :=
  fun a b => inferInstanceAs (Decidable (a.toList ≤ b.toList))

/-- All feature names observed across the run, in emission order
(the first collection pass of `generate_csv_assessment_results`). -/
def featureNamesOf (ba : BrandAssessment) : List String :=
  ba.video_assessments.flatMap (fun va => va.features.map (fun f => f.feature))

/-- Python `sorted(features_set)`: the sorted list of the distinct feature
names observed across all video assessments. -/
def features_list (ba : BrandAssessment) : List String :=
  List.insertionSort strLe (featureNamesOf ba).dedup

/-- One cell of the CSV matrix (string, int, or rounded-float payload). -/
inductive CsvCell where
  | s (v : String)
  | i (v : ℤ)
  | q (v : ℚ)
deriving DecidableEq

/-- Header row of `generate_csv_assessment_results`. -/
def csvHeader (fl : List String) : List CsvCell :=
  ([ "Video Name", "Video URI", "Overall Score", "Passed Features", "Total Features"].map CsvCell.s)
  ++ fl.map (fun f => CsvCell.s (f ++ " - Detected"))
  ++ fl.map (fun f => CsvCell.s (f ++ " - Score"))
  ++ fl.map (fun f => CsvCell.s (f ++ " - Explanation"))

/-- One video row of `generate_csv_assessment_results`. -/
def csvRow (fl : List String) (va : VideoAssessment) : List CsvCell :=
  [CsvCell.s va.video_name, CsvCell.s va.video_uri, CsvCell.q (pyRound2 va.score),
   CsvCell.i va.passed_features_count, CsvCell.i va.features.length]
  ++ fl.map (fun f => CsvCell.s (if featureDetectionMap va.features f then "Yes" else "No"))
  ++ fl.map (fun f => CsvCell.i (if featureDetectionMap va.features f then 1 else 0))
  ++ fl.map (fun f => CsvCell.s (cleanCell (featureExplanationMap va.features f)))

/-- `generate_csv_assessment_results`: header row, then one row per video. -/
def generate_csv_assessment_results (ba : BrandAssessment) : List (List CsvCell) :=
  csvHeader (features_list ba) :: ba.video_assessments.map (csvRow (features_list ba))

/-- State of two workers racing the check-then-create sequence of
`trim_videos` / `trim_and_push_video_to_gcs` for the same missing preview
clip: whether the preview object exists, each worker's program counter
(0 = existence check, 1 = download and trim, 2 = generation-guarded
upload, 3 = done), and counts of transforms and successful uploads. -/
structure RaceState where
  present : Bool
  pcA : ℕ
  pcB : ℕ
  transforms : ℕ
  uploads : ℕ
deriving DecidableEq

/-- Both workers start before the existence check, preview missing. -/
def raceInit : RaceState := ⟨false, 0, 0, 0, 0⟩

/-- Set the program counter of the chosen worker. -/
def setPc (w : Bool) (st : RaceState) (pc : ℕ) : RaceState :=
  if w then { st with pcA := pc } else { st with pcB := pc }

/-- One step of the chosen worker (`true` = worker A, `false` = worker B). -/
def raceStep (w : Bool) (st : RaceState) : RaceState :=
  let pc := if w then st.pcA else st.pcB
  if pc = 0 then
    if st.present then setPc w st 3 else setPc w st 1
  else if pc = 1 then
    setPc w { st with transforms := st.transforms + 1 } 2
  else if pc = 2 then
    if st.present then setPc w st 3
    else setPc w { st with present := true, uploads := st.uploads + 1 } 3
  else st

/-- Run the race under a given interleaving schedule. -/
def raceRun (sched : List Bool) (st : RaceState) : RaceState :=
  sched.foldl (fun s w => raceStep w s) st

/-- Concrete detector outputs used by witness runs. -/
def sampleDetectors : DetectorResults :=
  ⟨⟨"qp", true, LLMDetails.absent⟩, ⟨"qp5", false, LLMDetails.absent⟩,
   ⟨"ds", true, LLMDetails.absent⟩, ⟨"su", false, LLMDetails.absent⟩,
   ⟨"sua", false, LLMDetails.absent⟩, ⟨"bv", true, LLMDetails.absent⟩,
   ⟨"bv5", false, LLMDetails.absent⟩, ⟨"bvl5", true, LLMDetails.absent⟩,
   ⟨"bm", false, LLMDetails.absent⟩, ⟨"bm5", false, LLMDetails.absent⟩,
   ⟨"pv", true, LLMDetails.absent⟩, ⟨"pv5", false, LLMDetails.absent⟩,
   ⟨"pmt", false, LLMDetails.absent⟩, ⟨"pmt5", false, LLMDetails.absent⟩,
   ⟨"pms", false, LLMDetails.absent⟩, ⟨"pms5", false, LLMDetails.absent⟩,
   ⟨"vf5", true, LLMDetails.absent⟩, ⟨"vfc", false, LLMDetails.absent⟩,
   ⟨"pp", true, LLMDetails.absent⟩, ⟨"pp5", false, LLMDetails.absent⟩,
   ⟨"ase", false, LLMDetails.absent⟩, ⟨"op", true, LLMDetails.absent⟩,
   ⟨"ctas", false, LLMDetails.absent⟩, ⟨"ctat", true, LLMDetails.absent⟩⟩

/-- Detector outputs whose brand-visuals triple has three distinct,
recognisable feature names. -/
def dLogo : DetectorResults :=
  { sampleDetectors with
    brand_visuals := ⟨"Brand Visuals", true, LLMDetails.absent⟩
    brand_visuals_1st_5_secs := ⟨"Brand Visuals (First 5 seconds)", true, LLMDetails.absent⟩
    brand_visuals_logo_big_1st_5_secs :=
      ⟨"Brand Visuals (Logo Big) (First 5 seconds)", true, LLMDetails.absent⟩ }

/-- String append acts as append on the underlying char lists. -/
theorem toList_append (a b : String) : (a ++ b).toList = a.toList ++ b.toList :=
  String.data_append a b

/-- Every derived preview-clip path contains the `1st_5_secs` marker, so a
later listing pass skips it. -/
theorem pyIn_previewPath (folder vn wf : String) :
    pyIn "1st_5_secs" (previewPath folder vn wf) = true := by
  unfold pyIn previewPath
  rw [decide_eq_true_eq, toList_append, toList_append, toList_append, toList_append]
  have base : "1st_5_secs".toList <:+: "_1st_5_secs.".toList := by decide
  exact base.trans (List.infix_append _ _ _)

/-- Every derived preview-clip path sits under the brand videos folder, so
a later listing pass returns it. -/
theorem nameHasPre_previewPath (folder vn wf : String) :
    nameHasPre folder (previewPath folder vn wf) = true := by
  unfold nameHasPre previewPath
  rw [decide_eq_true_eq, toList_append, toList_append, toList_append, toList_append]
  exact (((List.prefix_append _ _).trans (List.prefix_append _ _)).trans
    (List.prefix_append _ _)).trans (List.prefix_append _ _)

theorem blobExists_mono {s1 s2 : List Blob} (hsub : ∀ b ∈ s1, b ∈ s2) {n : String}
    (h : blobExists s1 n = true) : blobExists s2 n = true := by
  rcases List.any_eq_true.mp h with ⟨b, hb, hn⟩
  exact List.any_eq_true.mpr ⟨b, hsub b hb, hn⟩

/-- C10. `get_file_name_from_gcs_url` yields the documented pair exactly
when the url splits on `/` into three parts; for every other input it
yields the bare string `""`, whose two-variable unpacking raises
`ValueError` instead of producing two empty names. -/
theorem c10_name_resolution (url : String) :
    ((pySplit url '/').length = 3 ↔
      ∃ a b, get_file_name_from_gcs_url url = NameResolution.pair a b) ∧
    ((pySplit url '/').length ≠ 3 →
      get_file_name_from_gcs_url url = NameResolution.single "" ∧
      unpackTwo (get_file_name_from_gcs_url url) = Except.error "ValueError") := by
  constructor
  · constructor
    · intro h
      exact ⟨_, _, by rw [get_file_name_from_gcs_url, if_pos h]⟩
    · rintro ⟨a, b, hab⟩
      by_cases h : (pySplit url '/').length = 3
      · exact h
      · simp [get_file_name_from_gcs_url, h] at hab
  · intro h
    have h1 : get_file_name_from_gcs_url url = NameResolution.single "" := by
      simp [get_file_name_from_gcs_url, h]
    exact ⟨h1, by rw [h1]; rfl⟩

/-- C10 witness: a two-part url resolves to the bare `""` and its
unpacking raises `ValueError`. -/
theorem c10_witness :
    (pySplit "brand/videos" '/').length ≠ 3 ∧
    get_file_name_from_gcs_url "brand/videos" = NameResolution.single "" ∧
    unpackTwo (get_file_name_from_gcs_url "brand/videos") = Except.error "ValueError" :=
  ⟨by decide, ((c10_name_resolution "brand/videos").2 (by decide)).1,
    ((c10_name_resolution "brand/videos").2 (by decide)).2⟩

/-- C9 counterexample: the claim that all three results of
`detect_brand_visuals` appear in the aggregated feature list is false: in
a concrete run the logo-large variant is absent from the features of the
produced assessment, while the other two variants are present. -/
theorem c9_counterexample :
    dLogo.brand_visuals ∈ assembleFeatures dLogo ∧
    dLogo.brand_visuals_1st_5_secs ∈ assembleFeatures dLogo ∧
    dLogo.brand_visuals_logo_big_1st_5_secs ∉ assembleFeatures dLogo ∧
    execute_abcd_assessment_for_videos "b" "bkt" false 0 (fun _ => dLogo)
      [⟨"b/videos/a.mp4", 0⟩] =
      Except.ok ⟨"b", [mkAssessment "bkt" ⟨"b/videos/a.mp4", 0⟩ "a.mp4" dLogo]⟩ ∧
    (mkAssessment "bkt" ⟨"b/videos/a.mp4", 0⟩ "a.mp4" dLogo).features = assembleFeatures dLogo :=
  ⟨by decide, by decide, by decide, rfl, rfl⟩

/-- C9 (amended). The aggregated feature list contains the overall and
first-5-seconds brand-visual results, has exactly 23 entries, and never
depends on the logo-large result, which is unpacked but discarded. -/
theorem c9_brand_visuals_variants (d : DetectorResults) (x : FeatureResult) :
    assembleFeatures { d with brand_visuals_logo_big_1st_5_secs := x } = assembleFeatures d ∧
    d.brand_visuals ∈ assembleFeatures d ∧
    d.brand_visuals_1st_5_secs ∈ assembleFeatures d ∧
    (assembleFeatures d).length = 23 := by
  refine ⟨rfl, ?_, ?_, rfl⟩ <;> simp [assembleFeatures]

/-- C4. A listed object whose name does not decompose into exactly three
`/`-separated parts is fatal to the brand run: both the trimming pass and
the assessment pass raise `ValueError` from the two-variable unpacking of
`get_file_name_from_gcs_url` before reaching any skip diagnostics. -/
theorem c4_malformed_name_fatal :
    trim_videos "b" [⟨"b/videos/extra/clip.mp4", 1⟩] = Except.error "ValueError" ∧
    execute_abcd_assessment_for_videos "b" "bkt" true 7 (fun _ => sampleDetectors)
      [⟨"b/videos/extra/clip.mp4", 1⟩] = Except.error "ValueError" :=
  ⟨rfl, rfl⟩

/-- Rounding an integer-valued rational changes nothing. -/
theorem roundHalfEven_intCast (n : ℤ) : roundHalfEven ((n : ℚ)) = n := by
  unfold roundHalfEven
  rw [Int.floor_intCast, sub_self, if_pos (by norm_num : (0 : ℚ) < 1/2)]

/-- A rational with exactly two decimal digits is a fixed point of
`round(-, 2)`. -/
theorem pyRound2_div100 (n : ℤ) : pyRound2 ((n : ℚ) / 100) = (n : ℚ) / 100 := by
  unfold pyRound2
  rw [div_mul_cancel₀ _ (by norm_num : (100 : ℚ) ≠ 0), roundHalfEven_intCast]

/-- C2 counterexample: the digest renderer does not derive the band from
the score with the stated thresholds: at raw score `79.996` it prints
"Excellent" although the score is strictly below 80 (the band is computed
from `round(score, 2) = 80.0`). -/
theorem c2_counterexample :
    formatClassification (79996/1000) = "Excellent" ∧ ¬ (80 ≤ (79996/1000 : ℚ)) := by
  constructor
  · have h : pyRound2 (79996/1000 : ℚ) = 80 := by
      unfold pyRound2 roundHalfEven
      rw [show ((79996 : ℚ)/1000) * 100 = 39998/5 by norm_num,
        show ⌊(39998 : ℚ)/5⌋ = 7999 by norm_num,
        if_neg (by norm_num), if_pos (by norm_num)]
      norm_num
    unfold formatClassification
    rw [h, if_pos (by norm_num)]
  · norm_num

/-- C2 (amended). `print_abcd_assetssments` derives the band from the raw
score with the claimed thresholds; `format_assessment_results` derives it
from the score rounded to two decimals; at the four boundary scores 80.0,
65.0, 79.99 and 64.99 both renderers produce the claimed bands. -/
theorem c2_classification_bands :
    (∀ s : ℚ, formatClassification s = printClassification (pyRound2 s)) ∧
    (∀ s : ℚ,
      (80 ≤ s → printClassification s = "Excellent") ∧
      (65 ≤ s → s < 80 → printClassification s = "Might Improve") ∧
      (s < 65 → printClassification s = "Needs Review")) ∧
    printClassification 80 = "Excellent" ∧
    printClassification 65 = "Might Improve" ∧
    printClassification (7999/100) = "Might Improve" ∧
    printClassification (6499/100) = "Needs Review" ∧
    formatClassification 80 = "Excellent" ∧
    formatClassification 65 = "Might Improve" ∧
    formatClassification (7999/100) = "Might Improve" ∧
    formatClassification (6499/100) = "Needs Review" := by
  have heq : ∀ s : ℚ, formatClassification s = printClassification (pyRound2 s) :=
    fun _ => rfl
  have hband : ∀ s : ℚ,
      (80 ≤ s → printClassification s = "Excellent") ∧
      (65 ≤ s → s < 80 → printClassification s = "Might Improve") ∧
      (s < 65 → printClassification s = "Needs Review") := by
    intro s
    refine ⟨fun h80 => ?_, fun h65 hlt => ?_, fun hlt => ?_⟩ <;> unfold printClassification
    · rw [if_pos h80]
    · rw [if_neg (not_le.mpr hlt), if_pos (⟨h65, hlt⟩ : s ≥ 65 ∧ s < 80)]
    · rw [if_neg (not_le.mpr (lt_trans hlt (by norm_num))),
        if_neg (fun hc => absurd hc.1 (not_le.mpr hlt))]
  have h80 : pyRound2 (80 : ℚ) = 80 := by
    rw [show (80 : ℚ) = ((8000 : ℤ) : ℚ)/100 by norm_num, pyRound2_div100]
  have h65 : pyRound2 (65 : ℚ) = 65 := by
    rw [show (65 : ℚ) = ((6500 : ℤ) : ℚ)/100 by norm_num, pyRound2_div100]
  have h7999 : pyRound2 (7999/100 : ℚ) = 7999/100 := by
    rw [show (7999/100 : ℚ) = ((7999 : ℤ) : ℚ)/100 by norm_num, pyRound2_div100]
  have h6499 : pyRound2 (6499/100 : ℚ) = 6499/100 := by
    rw [show (6499/100 : ℚ) = ((6499 : ℤ) : ℚ)/100 by norm_num, pyRound2_div100]
  refine ⟨heq, hband, ?_, ?_, ?_, ?_, ?_, ?_, ?_, ?_⟩
  · exact (hband 80).1 (by norm_num)
  · exact (hband 65).2.1 (by norm_num) (by norm_num)
  · exact (hband (7999/100)).2.1 (by norm_num) (by norm_num)
  · exact (hband (6499/100)).2.2 (by norm_num)
  · rw [heq, h80]; exact (hband 80).1 (by norm_num)
  · rw [heq, h65]; exact (hband 65).2.1 (by norm_num) (by norm_num)
  · rw [heq, h7999]; exact (hband (7999/100)).2.1 (by norm_num) (by norm_num)
  · rw [heq, h6499]; exact (hband (6499/100)).2.2 (by norm_num)

/-- C2 witness: the console renderer classifies 79.99 as "Might Improve". -/
theorem c2_witness :
    (65 ≤ (7999/100 : ℚ)) ∧ ((7999/100 : ℚ) < 80) ∧
    printClassification (7999/100) = "Might Improve" :=
  ⟨by norm_num, by norm_num,
    (c2_classification_bands.2.1 (7999/100)).2.1 (by norm_num) (by norm_num)⟩

/-- C5 (amended). When zero videos yield an assessment the detector does
not return a report: it raises `SystemExit` after printing a message; a
successful return always carries a nonempty assessment sequence. -/
theorem c5_empty_result (brand bucket : String) (u : Bool) (limit : ℚ)
    (detect : String → DetectorResults) (store : List Blob) :
    (∀ ba, execute_abcd_detector brand bucket u limit detect store = Except.ok ba →
      ba.video_assessments ≠ []) ∧
    (∀ store2 acts ba,
      trim_videos brand store = Except.ok (store2, acts) →
      execute_abcd_assessment_for_videos brand bucket u limit detect store2 = Except.ok ba →
      ba.video_assessments = [] →
      execute_abcd_detector brand bucket u limit detect store =
        Except.error "SystemExit: There are no videos to display.") := by
  constructor
  · intro ba h
    unfold execute_abcd_detector at h
    cases htrim : trim_videos brand store with
    | error e => rw [htrim] at h; cases h
    | ok p =>
      obtain ⟨store2, acts⟩ := p
      rw [htrim] at h
      dsimp only at h
      cases hassess : execute_abcd_assessment_for_videos brand bucket u limit detect store2 with
      | error e => rw [hassess] at h; cases h
      | ok ba2 =>
        rw [hassess] at h
        dsimp only at h
        by_cases hlen : ba2.video_assessments.length = 0
        · rw [if_pos hlen] at h; cases h
        · rw [if_neg hlen] at h
          cases h
          exact fun hnil => hlen (by rw [hnil]; rfl)
  · intro store2 acts ba htrim hassess hnil
    unfold execute_abcd_detector
    rw [htrim]
    dsimp only
    rw [hassess]
    dsimp only
    rw [if_pos (show ba.video_assessments.length = 0 by rw [hnil]; rfl)]

/-- C5 counterexample: the claim that callers can distinguish "no matching
videos" from "all videos filtered" is false: a brand with no stored videos
and a brand whose only video is filtered by the size gate produce the
identical `SystemExit` signal. -/
theorem c5_counterexample :
    execute_abcd_detector "Acme" "bkt" true 7 (fun _ => sampleDetectors) [] =
      Except.error "SystemExit: There are no videos to display." ∧
    execute_abcd_detector "Acme" "bkt" true 7 (fun _ => sampleDetectors)
      [⟨"Acme/videos/big.mp4", 9000000⟩] =
      Except.error "SystemExit: There are no videos to display." :=
  ⟨rfl, rfl⟩

/-- C5 witness: a run that skips one oversized video still returns a
complete (nonempty) report over the remaining video. -/
theorem c5_witness :
    execute_abcd_detector "Acme" "bkt" true 7 (fun _ => sampleDetectors)
      [⟨"Acme/videos/good.mp4", 4000000⟩, ⟨"Acme/videos/big.mp4", 9000000⟩] =
      Except.ok ⟨"Acme", [mkAssessment "bkt" ⟨"Acme/videos/good.mp4", 4000000⟩
        "good.mp4" sampleDetectors]⟩ ∧
    (⟨"Acme", [mkAssessment "bkt" ⟨"Acme/videos/good.mp4", 4000000⟩
        "good.mp4" sampleDetectors]⟩ : BrandAssessment).video_assessments ≠ [] :=
  ⟨rfl,
    (c5_empty_result "Acme" "bkt" true 7 (fun _ => sampleDetectors)
      [⟨"Acme/videos/good.mp4", 4000000⟩, ⟨"Acme/videos/big.mp4", 9000000⟩]).1 _ rfl⟩

/-- C6. Inside the assessment loop, a well-named video is skipped (and the
loop continues over the rest) exactly when LLM use is enabled and its size
in megabytes exceeds the limit; a video at or under the limit is assessed
and prepended to the remaining assessments. -/
theorem c6_size_gate (bucket folder : String) (limit : ℚ)
    (detect : String → DetectorResults) (b : Blob) (rest : List Blob) (vn wf : String)
    (hskip : skipBlobName folder b.name = false)
    (hres : unpackTwo (get_file_name_from_gcs_url b.name) = Except.ok (vn, wf))
    (hvn : ¬ vn = "") (hwf : ¬ wf = "") :
    (limit < sizeMb b.size →
      assessLoop bucket folder true limit detect (b :: rest) =
        assessLoop bucket folder true limit detect rest) ∧
    (∀ use_llms : Bool, sizeMb b.size ≤ limit → ∀ vas,
      assessLoop bucket folder use_llms limit detect rest = Except.ok vas →
      assessLoop bucket folder use_llms limit detect (b :: rest) =
        Except.ok (mkAssessment bucket b wf (detect b.name) :: vas)) := by
  constructor
  · intro hover
    rw [assessLoop, hskip, hres]
    simp only [Bool.false_eq_true, if_false]
    rw [if_neg (by exact fun hc => hc.elim hvn hwf),
      if_pos (by simp [decide_eq_true_eq, hover])]
  · intro u hunder vas hrest
    rw [assessLoop, hskip, hres]
    simp only [Bool.false_eq_true, if_false]
    rw [if_neg (by exact fun hc => hc.elim hvn hwf),
      if_neg (by simp [decide_eq_true_eq, not_lt.mpr hunder]), hrest]

/-- C6 witness: with a 7 MB limit a 9 MB video is skipped while a 4 MB
video in the same position is assessed. -/
theorem c6_witness :
    (7 : ℚ) < sizeMb 9000000 ∧
    assessLoop "bkt" "Acme/videos" true 7 (fun _ => sampleDetectors)
      [⟨"Acme/videos/big.mp4", 9000000⟩] =
      assessLoop "bkt" "Acme/videos" true 7 (fun _ => sampleDetectors) [] ∧
    sizeMb 4000000 ≤ (7 : ℚ) ∧
    assessLoop "bkt" "Acme/videos" true 7 (fun _ => sampleDetectors)
      [⟨"Acme/videos/good.mp4", 4000000⟩] =
      Except.ok [mkAssessment "bkt" ⟨"Acme/videos/good.mp4", 4000000⟩
        "good.mp4" sampleDetectors] := by
  refine ⟨?_, ?_, ?_, ?_⟩
  · rw [sizeMb_eq_div]; norm_num
  · exact (c6_size_gate "bkt" "Acme/videos" 7 (fun _ => sampleDetectors)
      ⟨"Acme/videos/big.mp4", 9000000⟩ [] "big" "big.mp4" (by decide) rfl
      (by decide) (by decide)).1 (by rw [sizeMb_eq_div]; norm_num)
  · rw [sizeMb_eq_div]; norm_num
  · exact (c6_size_gate "bkt" "Acme/videos" 7 (fun _ => sampleDetectors)
      ⟨"Acme/videos/good.mp4", 4000000⟩ [] "good" "good.mp4" (by decide) rfl
      (by decide) (by decide)).2 true (by rw [sizeMb_eq_div]; norm_num) [] rfl

/-- Every assessment produced by the loop has the `mkAssessment` shape. -/
theorem assessLoop_mem (bucket folder : String) (u : Bool) (limit : ℚ)
    (detect : String → DetectorResults) :
    ∀ (bs : List Blob) (vas : List VideoAssessment),
      assessLoop bucket folder u limit detect bs = Except.ok vas →
      ∀ va ∈ vas, ∃ b wf, va = mkAssessment bucket b wf (detect b.name) := by
  intro bs
  induction bs with
  | nil =>
    intro vas h va hva
    rw [assessLoop] at h
    cases h
    cases hva
  | cons b rest ih =>
    intro vas h va hva
    rw [assessLoop] at h
    split at h
    · exact ih vas h va hva
    · split at h
      · simp at h
      · rename_i vn wf hres
        split at h
        · exact ih vas h va hva
        · split at h
          · exact ih vas h va hva
          · split at h
            · simp at h
            · rename_i vas2 hloop
              cases h
              rcases List.mem_cons.mp hva with rfl | hmem
              · exact ⟨b, wf, rfl⟩
              · exact ih vas2 hloop va hmem

/-- C1. In every brand assessment produced by
`execute_abcd_assessment_for_videos`, each video's passed count equals the
number of detected feature results, never exceeds the number of features
emitted, and the unrounded score is `100 * passed / total` when the total
is positive. -/
theorem c1_score_invariant (brand bucket : String) (u : Bool) (limit : ℚ)
    (detect : String → DetectorResults) (store : List Blob) (ba : BrandAssessment)
    (h : execute_abcd_assessment_for_videos brand bucket u limit detect store = Except.ok ba)
    (va : VideoAssessment) (hva : va ∈ ba.video_assessments)
    (hpos : 0 < va.features.length) :
    va.passed_features_count = (va.features.filter (fun f => f.feature_detected)).length ∧
    va.passed_features_count ≤ va.features.length ∧
    va.score = (100 * (va.passed_features_count : ℚ)) / ((va.features.length : ℚ)) := by
  unfold execute_abcd_assessment_for_videos at h
  cases hloop : assessLoop bucket (brand ++ "/videos") u limit detect
      (store.filter (fun b => nameHasPre (brand ++ "/videos") b.name)) with
  | error e => rw [hloop] at h; simp at h
  | ok vas =>
    rw [hloop] at h
    dsimp only at h
    cases h
    obtain ⟨b, wf, rfl⟩ :=
      assessLoop_mem bucket (brand ++ "/videos") u limit detect _ vas hloop va hva
    refine ⟨rfl, List.length_filter_le _ _, ?_⟩
    show ((((assembleFeatures (detect b.name)).filter
        (fun f => f.feature_detected)).length : ℚ) * 100) /
      ((assembleFeatures (detect b.name)).length : ℚ) = _
    rw [mul_comm]
    rfl

/-- Concrete assessment produced by the C1 witness run. -/
def c1VA : VideoAssessment :=
  mkAssessment "bkt" ⟨"Acme/videos/a.mp4", 4000000⟩ "a.mp4" sampleDetectors

/-- Concrete brand assessment produced by the C1 witness run. -/
def c1BA : BrandAssessment := ⟨"Acme", [c1VA]⟩

/-- C1 witness: the invariant holds on a concrete one-video run. -/
theorem c1_witness :
    execute_abcd_assessment_for_videos "Acme" "bkt" true 7 (fun _ => sampleDetectors)
      [⟨"Acme/videos/a.mp4", 4000000⟩] = Except.ok c1BA ∧
    c1VA ∈ c1BA.video_assessments ∧ 0 < c1VA.features.length ∧
    (c1VA.passed_features_count =
        (c1VA.features.filter (fun f => f.feature_detected)).length ∧
      c1VA.passed_features_count ≤ c1VA.features.length ∧
      c1VA.score = (100 * (c1VA.passed_features_count : ℚ)) / ((c1VA.features.length : ℚ))) :=
  ⟨rfl, List.mem_singleton.mpr rfl, by decide,
    c1_score_invariant "Acme" "bkt" true 7 (fun _ => sampleDetectors)
      [⟨"Acme/videos/a.mp4", 4000000⟩] c1BA rfl c1VA (List.mem_singleton.mpr rfl) (by decide)⟩

instance : IsTrans String strLe :=
  ⟨fun _ _ _ hab hbc => le_trans hab hbc⟩

instance : IsAntisymm String strLe :=
  ⟨fun a b hab hba => by
    cases a
    cases b
    exact congrArg String.mk (le_antisymm hab hba)⟩

instance : IsTotal String strLe :=
  ⟨fun a b => le_total a.toList b.toList⟩

/-- C8. The sorted distinct feature-name list that defines the CSV matrix
columns is invariant under any reordering of the video assessments. -/
theorem c8_feature_columns_perm_invariant (bn : String)
    (vas vas2 : List VideoAssessment) (h : vas.Perm vas2) :
    features_list ⟨bn, vas⟩ = features_list ⟨bn, vas2⟩ := by
  unfold features_list featureNamesOf
  have hnames : ((⟨bn, vas⟩ : BrandAssessment).video_assessments.flatMap
        (fun va => va.features.map (fun f => f.feature))).Perm
      ((⟨bn, vas2⟩ : BrandAssessment).video_assessments.flatMap
        (fun va => va.features.map (fun f => f.feature))) :=
    h.flatMap_right _
  exact List.eq_of_perm_of_sorted
    (((List.perm_insertionSort strLe _).trans hnames.dedup).trans
      (List.perm_insertionSort strLe _).symm)
    (List.sorted_insertionSort strLe _) (List.sorted_insertionSort strLe _)

/-- First concrete assessment for the C8 witness. -/
def c8VA1 : VideoAssessment := ⟨"v1", "u1", [⟨"beta", true, LLMDetails.absent⟩], 1, 100⟩

/-- Second concrete assessment for the C8 witness. -/
def c8VA2 : VideoAssessment := ⟨"v2", "u2", [⟨"alpha", false, LLMDetails.absent⟩], 0, 0⟩

/-- C8 witness: swapping two concrete assessments leaves the sorted
feature-name list unchanged. -/
theorem c8_witness :
    ([c8VA1, c8VA2] : List VideoAssessment).Perm [c8VA2, c8VA1] ∧
    features_list ⟨"b", [c8VA1, c8VA2]⟩ = features_list ⟨"b", [c8VA2, c8VA1]⟩ :=
  ⟨List.Perm.swap c8VA2 c8VA1 [],
    c8_feature_columns_perm_invariant "b" [c8VA1, c8VA2] [c8VA2, c8VA1]
      (List.Perm.swap c8VA2 c8VA1 [])⟩

/-- A feature name a video never produced has no entry in its per-video
dicts. -/
theorem lastResultFor_none (va : VideoAssessment) (f : String)
    (hf : f ∉ va.features.map (fun fr => fr.feature)) :
    lastResultFor va.features f = none := by
  unfold lastResultFor
  rw [List.filter_eq_nil_iff.mpr, List.getLast?_nil]
  intro fr hfr
  simp only [decide_eq_true_eq]
  exact fun heq => hf (heq ▸ List.mem_map_of_mem _ hfr)

/-- C7. Every video row of the CSV matrix consists of the five fixed
leading cells (name, uri, score rounded to two decimals, passed count,
total count) followed by one detection-flag cell, one numeric 1/0 cell and
one cleaned explanation cell per sorted feature name (flags, then scores,
then explanations, each block aligned with the sorted feature-name list);
a feature the video never produced renders "No", 0 and the empty string. -/
theorem c7_csv_matrix_rows (ba : BrandAssessment) (va : VideoAssessment)
    (hva : va ∈ ba.video_assessments) :
    csvRow (features_list ba) va ∈ generate_csv_assessment_results ba ∧
    (csvRow (features_list ba) va).length = 5 + 3 * (features_list ba).length ∧
    (csvRow (features_list ba) va).take 5 =
      [CsvCell.s va.video_name, CsvCell.s va.video_uri, CsvCell.q (pyRound2 va.score),
       CsvCell.i va.passed_features_count, CsvCell.i va.features.length] ∧
    ((csvRow (features_list ba) va).drop 5).take (features_list ba).length =
      (features_list ba).map
        (fun f => CsvCell.s (if featureDetectionMap va.features f then "Yes" else "No")) ∧
    ((csvRow (features_list ba) va).drop
        (5 + (features_list ba).length)).take (features_list ba).length =
      (features_list ba).map
        (fun f => CsvCell.i (if featureDetectionMap va.features f then 1 else 0)) ∧
    (csvRow (features_list ba) va).drop (5 + 2 * (features_list ba).length) =
      (features_list ba).map
        (fun f => CsvCell.s (cleanCell (featureExplanationMap va.features f))) ∧
    (∀ f, f ∉ va.features.map (fun fr => fr.feature) →
      featureDetectionMap va.features f = false ∧
      featureExplanationMap va.features f = "" ∧
      (if featureDetectionMap va.features f then CsvCell.s "Yes" else CsvCell.s "No") =
        CsvCell.s "No" ∧
      (if featureDetectionMap va.features f then (1 : ℤ) else 0) = 0 ∧
      cleanCell (featureExplanationMap va.features f) = "") := by
  refine ⟨List.mem_cons_of_mem _ (List.mem_map_of_mem _ hva), ?_, rfl, ?_, ?_, ?_,
    fun f hf => ?_⟩
  · simp only [csvRow, List.length_append, List.length_map, List.length_cons,
      List.length_nil]
    ring
  · unfold csvRow
    rw [List.append_assoc, List.append_assoc,
      List.drop_left' (by
        simp only [List.length_cons, List.length_nil] : _ = 5),
      List.take_left' (List.length_map _ _)]
  · unfold csvRow
    rw [List.append_assoc]
    rw [List.drop_left' (by
        simp only [List.length_append, List.length_map, List.length_cons,
          List.length_nil]),
      List.take_left' (List.length_map _ _)]
  · unfold csvRow
    rw [List.drop_left' (by
      simp only [List.length_append, List.length_map, List.length_cons, List.length_nil]
      omega)]
  · have hnone := lastResultFor_none va f hf
    have hdet : featureDetectionMap va.features f = false := by
      unfold featureDetectionMap
      rw [hnone]
    have hexp : featureExplanationMap va.features f = "" := by
      unfold featureExplanationMap
      rw [hnone]
    refine ⟨hdet, hexp, ?_, ?_, ?_⟩
    · rw [hdet]; rfl
    · rw [hdet]; rfl
    · rw [hexp]; rfl

/-- Assessment with one detected feature for the C7 witness. -/
def c7VA1 : VideoAssessment :=
  ⟨"v1", "u1", [⟨"beta", true, LLMDetails.ofDict (some "well_done")⟩], 1, 100⟩

/-- Assessment with a different feature for the C7 witness. -/
def c7VA2 : VideoAssessment :=
  ⟨"v2", "u2", [⟨"alpha", false, LLMDetails.absent⟩], 0, 0⟩

/-- Brand assessment for the C7 witness. -/
def c7BA : BrandAssessment := ⟨"b", [c7VA1, c7VA2]⟩

/-- C7 witness: the row shape and the "No" / 0 / empty-string defaults
hold on a concrete two-video report whose first video lacks one feature. -/
theorem c7_witness :
    c7VA1 ∈ c7BA.video_assessments ∧
    "alpha" ∉ c7VA1.features.map (fun fr => fr.feature) ∧
    ((csvRow (features_list c7BA) c7VA1).drop 5).take (features_list c7BA).length =
      (features_list c7BA).map
        (fun f => CsvCell.s (if featureDetectionMap c7VA1.features f then "Yes" else "No")) ∧
    featureDetectionMap c7VA1.features "alpha" = false ∧
    featureExplanationMap c7VA1.features "alpha" = "" :=
  ⟨List.mem_cons_self _ _, by decide,
    (c7_csv_matrix_rows c7BA c7VA1 (List.mem_cons_self _ _)).2.2.2.1,
    ((c7_csv_matrix_rows c7BA c7VA1 (List.mem_cons_self _ _)).2.2.2.2.2.2 "alpha"
      (by decide)).1,
    ((c7_csv_matrix_rows c7BA c7VA1 (List.mem_cons_self _ _)).2.2.2.2.2.2 "alpha"
      (by decide)).2.1⟩

/-- The trim loop only grows the store, and every added object is a
derived preview clip: it carries the `1st_5_secs` marker and sits under
the brand videos folder. -/
theorem trimLoop_grows (folder : String) :
    ∀ (names : List String) (store s2 : List Blob) (acts : List TrimAction),
      trimLoop folder names store = Except.ok (s2, acts) →
      (∀ b ∈ store, b ∈ s2) ∧
      (∀ b ∈ s2, b ∈ store ∨
        (pyIn "1st_5_secs" b.name = true ∧ nameHasPre folder b.name = true)) := by
  intro names
  induction names with
  | nil =>
    intro store s2 acts h
    rw [trimLoop] at h
    cases h
    exact ⟨fun b hb => hb, fun b hb => Or.inl hb⟩
  | cons v rest ih =>
    intro store s2 acts h
    rw [trimLoop] at h
    split at h
    · exact ih store s2 acts h
    · split at h
      · simp at h
      · rename_i vn wf hres
        split at h
        · exact ih store s2 acts h
        · split at h
          · simp at h
          · rename_i store2 hup
            split at h
            · simp at h
            · rename_i store3 acts2 hloop
              cases h
              have hstore2 : store2 = ⟨previewPath folder vn wf, 0⟩ :: store := by
                unfold conditionalUpload at hup
                split at hup
                · simp at hup
                · injection hup with h2
                  exact h2.symm
              obtain ⟨ih1, ih2⟩ := ih store2 s2 acts2 hloop
              subst hstore2
              constructor
              · exact fun b hb => ih1 b (List.mem_cons_of_mem _ hb)
              · intro b hb
                rcases ih2 b hb with hmem | hmark
                · rcases List.mem_cons.mp hmem with rfl | hmem2
                  · exact Or.inr ⟨pyIn_previewPath folder vn wf,
                      nameHasPre_previewPath folder vn wf⟩
                  · exact Or.inl hmem2
                · exact Or.inr hmark

/-- After a successful trim pass, every non-skipped listed video has its
preview clip in the store. -/
theorem trimLoop_ensures (folder : String) :
    ∀ (names : List String) (store s2 : List Blob) (acts : List TrimAction),
      trimLoop folder names store = Except.ok (s2, acts) →
      ∀ v ∈ names, skipBlobName folder v = false →
        ∃ vn wf, unpackTwo (get_file_name_from_gcs_url v) = Except.ok (vn, wf) ∧
          blobExists s2 (previewPath folder vn wf) = true := by
  intro names
  induction names with
  | nil => intro store s2 acts h v hv; cases hv
  | cons u rest ih =>
    intro store s2 acts h v hv hskip
    rw [trimLoop] at h
    rcases List.mem_cons.mp hv with rfl | hmem
    · split at h
      · rename_i hsk
        rw [hskip] at hsk
        cases hsk
      · split at h
        · simp at h
        · rename_i vn wf hres
          split at h
          · rename_i hex
            obtain ⟨hgrow, -⟩ := trimLoop_grows folder rest store s2 acts h
            exact ⟨vn, wf, hres, blobExists_mono hgrow hex⟩
          · split at h
            · simp at h
            · rename_i store2 hup
              split at h
              · simp at h
              · rename_i store3 acts2 hloop
                cases h
                have hstore2 : store2 = ⟨previewPath folder vn wf, 0⟩ :: store := by
                  unfold conditionalUpload at hup
                  split at hup
                  · simp at hup
                  · injection hup with h2
                    exact h2.symm
                obtain ⟨hgrow, -⟩ := trimLoop_grows folder rest store2 s2 acts2 hloop
                refine ⟨vn, wf, hres, blobExists_mono hgrow ?_⟩
                rw [hstore2]
                simp [blobExists]
    · split at h
      · exact ih store s2 acts h v hmem hskip
      · split at h
        · simp at h
        · split at h
          · exact ih store s2 acts h v hmem hskip
          · split at h
            · simp at h
            · split at h
              · simp at h
              · rename_i store3 acts2 hloop
                cases h
                exact ih _ s2 acts2 hloop v hmem hskip

/-- When every non-skipped listed video already has its preview clip, the
trim pass is a pure existence check: it changes nothing and runs no
download, transform or upload. -/
theorem trimLoop_noop (folder : String) :
    ∀ (names : List String) (store : List Blob),
      (∀ v ∈ names, skipBlobName folder v = false →
        ∃ vn wf, unpackTwo (get_file_name_from_gcs_url v) = Except.ok (vn, wf) ∧
          blobExists store (previewPath folder vn wf) = true) →
      trimLoop folder names store = Except.ok (store, []) := by
  intro names
  induction names with
  | nil => intro store hstore; rw [trimLoop]
  | cons v rest ih =>
    intro store hstore
    rw [trimLoop]
    by_cases hskip : skipBlobName folder v = true
    · rw [if_pos hskip]
      exact ih store (fun u hu => hstore u (List.mem_cons_of_mem _ hu))
    · have hskip2 : skipBlobName folder v = false := by
        cases hsk : skipBlobName folder v with
        | false => rfl
        | true => exact absurd hsk hskip
      rw [if_neg hskip]
      obtain ⟨vn, wf, hres, hex⟩ := hstore v (List.mem_cons_self _ _) hskip2
      rw [hres]
      dsimp only
      rw [if_pos hex]
      exact ih store (fun u hu => hstore u (List.mem_cons_of_mem _ hu))

/-- One worker step keeps the race invariant: no successful upload before
the preview exists, and never more than one successful upload. -/
theorem raceStep_inv (w : Bool) (st : RaceState)
    (h0 : st.present = false → st.uploads = 0) (h1 : st.uploads ≤ 1) :
    ((raceStep w st).present = false → (raceStep w st).uploads = 0) ∧
      (raceStep w st).uploads ≤ 1 := by
  unfold raceStep setPc
  dsimp only
  split_ifs <;> simp_all

/-- C3 (amended). Sequential idempotence of the trim pass: a video whose
preview clip exists is a pure existence check, and a second run of
`trim_videos` on the store a first run produced performs no action at all;
under a two-worker race the generation-guarded upload succeeds at most
once (while the transform may run twice, see `c3_race_counterexample`). -/
theorem c3_trim_idempotent :
    (∀ (folder : String) (store : List Blob) (v vn wf : String),
      skipBlobName folder v = false →
      unpackTwo (get_file_name_from_gcs_url v) = Except.ok (vn, wf) →
      blobExists store (previewPath folder vn wf) = true →
      trimLoop folder [v] store = Except.ok (store, [])) ∧
    (∀ (brand : String) (store s2 : List Blob) (acts : List TrimAction),
      trim_videos brand store = Except.ok (s2, acts) →
      trim_videos brand s2 = Except.ok (s2, [])) ∧
    (∀ sched : List Bool, (raceRun sched raceInit).uploads ≤ 1) := by
  refine ⟨?_, ?_, ?_⟩
  · intro folder store v vn wf hskip hres hex
    refine trimLoop_noop folder [v] store (fun u hu hsk => ?_)
    rcases List.mem_singleton.mp hu with rfl
    exact ⟨vn, wf, hres, hex⟩
  · intro brand store s2 acts h
    unfold trim_videos at h ⊢
    apply trimLoop_noop
    intro v hv hskip
    unfold listNames at hv
    rcases List.mem_map.mp hv with ⟨b, hbf, rfl⟩
    rcases List.mem_filter.mp hbf with ⟨hbs2, hbpre⟩
    rcases (trimLoop_grows (brand ++ "/videos") _ store s2 acts h).2 b hbs2 with
      hbstore | hmark
    · have hvlist : b.name ∈ listNames (brand ++ "/videos") store := by
        unfold listNames
        exact List.mem_map_of_mem _ (List.mem_filter.mpr ⟨hbstore, hbpre⟩)
      exact trimLoop_ensures (brand ++ "/videos") _ store s2 acts h b.name hvlist hskip
    · exfalso
      have hsk : skipBlobName (brand ++ "/videos") b.name = true := by
        unfold skipBlobName
        rw [hmark.1, Bool.or_true]
      rw [hskip] at hsk
      cases hsk
  · intro sched
    have key : ∀ (sch : List Bool) (st : RaceState),
        (st.present = false → st.uploads = 0) → st.uploads ≤ 1 →
        ((raceRun sch st).present = false → (raceRun sch st).uploads = 0) ∧
          (raceRun sch st).uploads ≤ 1 := by
      intro sch
      induction sch with
      | nil => intro st h0 h1; exact ⟨h0, h1⟩
      | cons w rest ih =>
        intro st h0 h1
        have hstep := raceStep_inv w st h0 h1
        exact ih (raceStep w st) hstep.1 hstep.2
    exact (key sched raceInit (fun _ => rfl) (by decide)).2

/-- C3 counterexample: under the race schedule where both workers pass the
existence check before either uploads, the transform runs twice (only the
generation-guarded upload is limited to one success), refuting the claim
that the second worker performs no transform. -/
theorem c3_race_counterexample :
    (raceRun [true, false, true, true, false, false] raceInit).transforms = 2 ∧
    (raceRun [true, false, true, true, false, false] raceInit).uploads = 1 := by
  decide

/-- Store contents after the first witness trim run. -/
def c3Store1 : List Blob :=
  [⟨"b/videos/a_1st_5_secs.mp4", 0⟩, ⟨"b/videos/a.mp4", 1⟩]

/-- Actions of the first witness trim run. -/
def c3Acts1 : List TrimAction :=
  [TrimAction.download "b/videos/a.mp4", TrimAction.transform "b/videos/a.mp4",
   TrimAction.upload "b/videos/a_1st_5_secs.mp4"]

/-- C3 witness: a concrete first run trims one video; the second run on
the resulting store performs no action. -/
theorem c3_witness :
    trim_videos "b" [⟨"b/videos/a.mp4", 1⟩] = Except.ok (c3Store1, c3Acts1) ∧
    trim_videos "b" c3Store1 = Except.ok (c3Store1, []) :=
  ⟨rfl, c3_trim_idempotent.2.1 "b" [⟨"b/videos/a.mp4", 1⟩] c3Store1 c3Acts1 rfl⟩

end ABCD
